import Mathlib

/-!
Shallow embedding of the AKTA MMI inventory-redistribution frontend and of its
SQL schema, together with theorems checking the natural-language specification
against the code.

Sources embedded here:
* `src/frontend/src/lib/api.ts` — the authenticated REST client
  (`getAuthToken`, `apiRequest`, `createRedistribution`,
  `approveRedistribution`, `getRedistribution`, `listRedistributions`,
  `getCommand`, `getTransaction`, `listTransactions`, `getHealth`);
* `src/frontend/src/pages/Redistribution.tsx` — the admin approval page
  (`getStatusColor`, the pending-list query, `approveMutation`), the
  Inventory page (`aggregatedProducts` reduce), the
  `CreateRedistributionDialog` (`createMutation`), and the SQL schema
  (enums, tables, row-level-security policies, `update_updated_at_column`
  triggers) that is concatenated into the same file.

Modelling conventions: JSONB payloads that no claim inspects are kept as
opaque strings; SQL `TIMESTAMPTZ` values are natural numbers; SQL `NUMERIC`
prices are integers (no claim computes with them); JavaScript `null` /
`undefined` become `Option`; a thrown `Error` becomes `Except.error` carrying
the message string.
-/

namespace Akta

/-! ## SQL enums (schema section of Redistribution.tsx) -/

/-- The SQL enum `app_role`: `CREATE TYPE app_role AS ENUM ('admin', 'kiosk')`. -/
inductive AppRole where
  | admin
  | kiosk
deriving DecidableEq, Repr

/-- The SQL enum `redistribution_status` — the seven lifecycle
states of a redistribution. -/
inductive RedistributionStatus where
  | requested
  | approved
  | submitted
  | fulfilled
  | reconciled
  | failed
  | timed_out
deriving DecidableEq, Repr

/-- The enum's labels in declaration order. -/
def redistributionStatusValues : List RedistributionStatus :=
  [.requested, .approved, .submitted, .fulfilled, .reconciled, .failed, .timed_out]

/-- The SQL enum `command_status`. -/
inductive CommandStatus where
  | pending
  | processing
  | submitted
  | completed
  | failed
deriving DecidableEq, Repr

/-! ## SQL rows (schema section of Redistribution.tsx) -/

/-- One element of the `items` JSONB array of a redistribution:
`[{sku, quantity, price}]`; the price member is never read by the
frontend and is omitted. -/
structure RedistItem where
  sku : String
  quantity : Int
deriving DecidableEq, Repr

/-- A row of the `redistributions` table. -/
structure RedistributionRow where
  id : String
  from_kiosk_id : String
  to_kiosk_id : String
  status : RedistributionStatus
  items : List RedistItem
  pricing : Option String
  blockchain_ref : Option String
  txid : Option String
  client_req_id : String
  signature : Option String
  public_key : Option String
  created_by : String
  created_at : Nat
  updated_at : Nat
  completed_at : Option Nat
deriving DecidableEq, Repr

/-- An `INSERT INTO redistributions`: every nullable column may be given or
omitted; the `status` column has `DEFAULT 'requested'`, so a row inserted
without an explicit status starts as `requested`; `created_at` and
`updated_at` default to `NOW()` (the `now` argument). -/
def insertRedistribution (id from_kiosk_id to_kiosk_id : String)
    (status? : Option RedistributionStatus) (items : List RedistItem)
    (pricing blockchain_ref txid : Option String) (client_req_id : String)
    (signature public_key : Option String) (created_by : String)
    (now : Nat) : RedistributionRow :=
  { id := id
    from_kiosk_id := from_kiosk_id
    to_kiosk_id := to_kiosk_id
    status := status?.getD .requested
    items := items
    pricing := pricing
    blockchain_ref := blockchain_ref
    txid := txid
    client_req_id := client_req_id
    signature := signature
    public_key := public_key
    created_by := created_by
    created_at := now
    updated_at := now
    completed_at := none }

/-- A row of the `kiosks` table (the JSONB `inventory` column is opaque). -/
structure KioskRow where
  id : String
  name : String
  location : String
  kiosk_code : String
  admin_id : Option String
  auto_approve : Bool
  inventory : String
  status : String
  created_at : Nat
  updated_at : Nat
deriving DecidableEq, Repr

/-- A row of the `products` table (prices as integers, opaque to all claims). -/
structure ProductRow where
  id : String
  sku : String
  name : String
  unit : String
  unit_price : Int
  acquired_price : Option Int
  suggested_price : Option Int
  quantity : Int
  created_at : Nat
  updated_at : Nat
deriving DecidableEq, Repr

/-- A row of the `profiles` table; `kiosk_id` is nullable. -/
structure ProfileRow where
  id : String
  user_id : String
  full_name : Option String
  kiosk_id : Option String
  created_at : Nat
  updated_at : Nat
deriving DecidableEq, Repr

/-- A row of the `blockchain_commands` table (`payload` JSONB kept opaque). -/
structure BlockchainCommandRow where
  id : String
  user_id : String
  client_req_id : String
  command_type : String
  payload : String
  status : CommandStatus
  redistribution_id : String
  error_message : Option String
  created_at : Nat
  updated_at : Nat
  processed_at : Option Nat
deriving DecidableEq, Repr

/-- A row of the `user_roles` table. -/
structure UserRoleRow where
  id : String
  user_id : String
  role : AppRole
deriving DecidableEq, Repr

/-! ## `update_updated_at_column` triggers

`CREATE OR REPLACE FUNCTION update_updated_at_column() ... NEW.updated_at =
NOW(); RETURN NEW;` is installed `BEFORE UPDATE` on `redistributions`,
`kiosks`, `products`, `profiles` and `blockchain_commands`.  A SQL `UPDATE`
statement is modelled as a function on the row; the trigger rewrites the
`updated_at` field of `NEW` (the row produced by the update) and returns it. -/

def triggerRedistributions (new : RedistributionRow) (now : Nat) : RedistributionRow :=
  { new with updated_at := now }

def triggerKiosks (new : KioskRow) (now : Nat) : KioskRow :=
  { new with updated_at := now }

def triggerProducts (new : ProductRow) (now : Nat) : ProductRow :=
  { new with updated_at := now }

def triggerProfiles (new : ProfileRow) (now : Nat) : ProfileRow :=
  { new with updated_at := now }

def triggerCommands (new : BlockchainCommandRow) (now : Nat) : BlockchainCommandRow :=
  { new with updated_at := now }

/-- The row stored by `UPDATE` on `redistributions`: the update statement
`u` produces `NEW`, then the `BEFORE UPDATE` trigger runs on it. -/
def applyUpdateRedistributions (u : RedistributionRow → RedistributionRow)
    (old : RedistributionRow) (now : Nat) : RedistributionRow :=
  triggerRedistributions (u old) now

def applyUpdateKiosks (u : KioskRow → KioskRow) (old : KioskRow) (now : Nat) : KioskRow :=
  triggerKiosks (u old) now

def applyUpdateProducts (u : ProductRow → ProductRow) (old : ProductRow) (now : Nat) : ProductRow :=
  triggerProducts (u old) now

def applyUpdateProfiles (u : ProfileRow → ProfileRow) (old : ProfileRow) (now : Nat) : ProfileRow :=
  triggerProfiles (u old) now

def applyUpdateCommands (u : BlockchainCommandRow → BlockchainCommandRow)
    (old : BlockchainCommandRow) (now : Nat) : BlockchainCommandRow :=
  triggerCommands (u old) now

/-! ## `getStatusColor` (Redistribution.tsx, admin page) -/

/-- The badge-colour switch of the admin page:
`switch (status) { case 'requested': ... default: return 'bg-secondary' }`. -/
def getStatusColor (status : String) : String :=
  if status = "requested" then "bg-warning/30 text-warning"
  else if status = "approved" then "bg-blue-500/30 text-blue-500"
  else if status = "submitted" then "bg-purple-500/30 text-purple-500"
  else if status = "fulfilled" then "bg-green-500/30 text-green-500"
  else if status = "reconciled" then "bg-emerald-500/30 text-emerald-500"
  else if status = "failed" then "bg-destructive/30 text-destructive"
  else "bg-secondary"

/-! ## The REST client (`src/frontend/src/lib/api.ts`)

`apiRequest` builds a headers object (`Content-Type`, the spread of
`options.headers`, then `Authorization` if a token exists), performs the
fetch, parses the JSON body and either throws `data.error?.message ||
'API request failed'` (when `!response.ok`) or returns `data.data`.
A JavaScript object of headers is an association list in which a later
assignment to an existing key overwrites it. -/

/-- Assign `headers[k] = v`: overwrite the first binding of `k`, or append. -/
def setHeader : List (String × String) → String → String → List (String × String)
  | [], k, v => [(k, v)]
  | (k', v') :: rest, k, v =>
    if k' = k then (k, v) :: rest else (k', v') :: setHeader rest k v

/-- Read `headers[k]`. -/
def getHeader : List (String × String) → String → Option String
  | [], _ => none
  | (k', v') :: rest, k => if k' = k then some v' else getHeader rest k

/-- The object spread `{ ...base, ...opts }`: each binding of `opts` is
assigned into `base` in order. -/
def spreadHeaders (base opts : List (String × String)) : List (String × String) :=
  opts.foldl (fun acc kv => setHeader acc kv.1 kv.2) base

/-- The headers object built by `apiRequest` from the session token and
`options.headers`:
`{'Content-Type': 'application/json', ...options.headers}` and then
`headers['Authorization'] = 'Bearer ' + token` when the token is non-null. -/
def buildHeaders (token : Option String) (optHeaders : List (String × String)) :
    List (String × String) :=
  let hs := spreadHeaders [("Content-Type", "application/json")] optHeaders
  match token with
  | some t => setHeader hs "Authorization" ("Bearer " ++ t)
  | none => hs

/-- HTTP method of a fetch; absent `options.method` means GET. -/
inductive Method where
  | get
  | post
deriving DecidableEq, Repr

/-- The parts of a `RequestInit` the repo's client passes to `apiRequest`:
the method, the top-level keys of the `JSON.stringify`-ed body, and any
caller-supplied headers. -/
structure RequestOptions where
  method : Option Method
  bodyKeys : List String
  headers : List (String × String)
deriving DecidableEq, Repr

/-- The default second argument `options = \x7b\x7d` of `apiRequest`, used by all
plain GET helpers of api.ts. -/
def emptyOptions : RequestOptions :=
  { method := none, bodyKeys := [], headers := [] }

/-- A `fetch` defaults to GET when no method is given. -/
def effectiveMethod (o : RequestOptions) : Method :=
  o.method.getD .get

/-- The query string built by `listRedistributions` / `listTransactions` via
`URLSearchParams` from the defined params, in insertion order (the repo's
keys and values contain no characters that URL-encoding would change). -/
def queryString (params : List (String × String)) : String :=
  String.intercalate "&" (params.map (fun kv => kv.1 ++ "=" ++ kv.2))

/-- The endpoint `/redistributions` with an optional query string, as in
`listRedistributions`. -/
def listRedistributionsEndpoint (params : List (String × String)) : String :=
  if params = [] then "/redistributions" else "/redistributions?" ++ queryString params

/-- Every call the repository's code makes through `apiRequest`, one
constructor per exported api.ts function (the list operations carry the
already-serialised defined params). -/
inductive RepoOperation where
  | createRedist
  | approveRedist (redistributionId : String)
  | getRedist (id : String)
  | listRedists (params : List (String × String))
  | getCommandCall (commandId : String)
  | getTransactionCall (txid : String)
  | listTransactionsCall (params : List (String × String))
  | getHealthCall

/-- The endpoint string each api.ts function passes to `apiRequest`. -/
def endpointOf : RepoOperation → String
  | .createRedist => "/redistributions"
  | .approveRedist id => "/redistributions/" ++ id ++ "/approve"
  | .getRedist id => "/redistributions/" ++ id
  | .listRedists params => listRedistributionsEndpoint params
  | .getCommandCall id => "/commands/" ++ id
  | .getTransactionCall txid => "/tx/" ++ txid
  | .listTransactionsCall params =>
    if params = [] then "/transactions" else "/transactions?" ++ queryString params
  | .getHealthCall => "/health"

/-- The `options` each api.ts function passes to `apiRequest`.
`createRedistribution` POSTs the six fields of `CreateRedistributionRequest`;
`approveRedistribution` POSTs `{admin_wallet, client_req_id}`; every other
helper passes no options at all.  No caller ever supplies headers. -/
def optionsOf : RepoOperation → RequestOptions
  | .createRedist =>
    { method := some .post
      bodyKeys := ["from_kiosk_id", "to_kiosk_id", "items", "client_req_id",
                   "signature", "public_key"]
      headers := [] }
  | .approveRedist _ =>
    { method := some .post
      bodyKeys := ["admin_wallet", "client_req_id"]
      headers := [] }
  | .getRedist _ => emptyOptions
  | .listRedists _ => emptyOptions
  | .getCommandCall _ => emptyOptions
  | .getTransactionCall _ => emptyOptions
  | .listTransactionsCall _ => emptyOptions
  | .getHealthCall => emptyOptions

/-- The headers `apiRequest` attaches when the repo performs `op` with the
session token `token`. -/
def sentHeaders (op : RepoOperation) (token : Option String) : List (String × String) :=
  buildHeaders token (optionsOf op).headers

/-- The params object `{ status: "requested" }` of the admin page's
pending-list query `listRedistributions({ status: "requested" })`. -/
def adminPendingParams : List (String × String) := [("status", "requested")]

/-! ### `apiRequest` response handling -/

/-- The `error` member of a parsed response body; its `message` member may be
absent. -/
structure ApiErrorBody where
  message : Option String
deriving DecidableEq, Repr

/-- A parsed JSON response body as `apiRequest` reads it: an optional `error`
object and a `data` payload. -/
structure ParsedBody (α : Type) where
  error : Option ApiErrorBody
  data : α
deriving DecidableEq, Repr

/-- A fetch response after `response.json()`: the `ok` flag and the parsed
body. -/
structure HttpResponse (α : Type) where
  ok : Bool
  body : ParsedBody α
deriving DecidableEq, Repr

/-- JavaScript `x || d` for an optional string `x`: the empty string is falsy,
so it also falls through to the default. -/
def jsOrElse (x : Option String) (d : String) : String :=
  match x with
  | some s => if s = "" then d else s
  | none => d

/-- The tail of `apiRequest` (api.ts lines 40–46) applied to a parsed
response: on `!response.ok` throw
`new Error(data.error?.message || 'API request failed')`, otherwise return
`data.data`. -/
def apiRequest {α : Type} (resp : HttpResponse α) : Except String α :=
  if resp.ok then .ok resp.body.data
  else .error (jsOrElse (resp.body.error.bind (fun e => e.message)) "API request failed")

/-! ## Row-level-security SELECT policies on `redistributions`

PostgreSQL RLS: the two `FOR SELECT` policies are permissive, so a row is
visible when the `USING` clause of at least one holds for the querying user
`auth.uid()`.  The database state carries the tables the clauses consult. -/

/-- The tables the SELECT policies read, plus the redistribution rows. -/
structure Database where
  user_roles : List UserRoleRow
  profiles : List ProfileRow
  redistributions : List RedistributionRow

/-- The clause `EXISTS (SELECT 1 FROM user_roles WHERE user_id = auth.uid() AND role =
'admin')` — the `USING` clause of "Admins can view all redistributions". -/
def adminSelectPolicy (db : Database) (uid : String) : Bool :=
  db.user_roles.any (fun r => r.user_id == uid && r.role == .admin)

/-- The clause `EXISTS (SELECT 1 FROM profiles WHERE user_id = auth.uid() AND (kiosk_id =
from_kiosk_id OR kiosk_id = to_kiosk_id))` — the `USING` clause of "Kiosks can
view their own redistributions".  A NULL `kiosk_id` compares as not-equal. -/
def kioskSelectPolicy (db : Database) (uid : String) (row : RedistributionRow) : Bool :=
  db.profiles.any (fun p =>
    p.user_id == uid &&
      (p.kiosk_id == some row.from_kiosk_id || p.kiosk_id == some row.to_kiosk_id))

/-- A redistribution row is visible to `uid` when some permissive SELECT
policy admits it. -/
def canSelectRedistribution (db : Database) (uid : String) (row : RedistributionRow) : Bool :=
  adminSelectPolicy db uid || kioskSelectPolicy db uid row

/-- The user `uid` has a `user_roles` entry with role 'kiosk'. -/
def hasKioskRole (db : Database) (uid : String) : Bool :=
  db.user_roles.any (fun r => r.user_id == uid && r.role == .kiosk)

/-! ## `CreateRedistributionDialog.createMutation` (Redistribution.tsx)

The mutation validates the form state and, when everything passes, calls
`createRedistribution(request)`.  The outcome is `Except`: `.error msg` for a
thrown `Error` (no request sent), `.ok request` for the request handed to
`createRedistribution`. -/

/-- The `CreateRedistributionRequest` interface of api.ts. -/
structure CreateRedistributionRequest where
  from_kiosk_id : String
  to_kiosk_id : String
  items : List RedistItem
  client_req_id : String
  signature : String
  public_key : String
deriving DecidableEq, Repr

/-- One entry of the dialog's `products` query result: `{id, sku, name, unit,
available_quantity}` mapped from `kiosk_inventory` joined with `products`. -/
structure ProductChoice where
  id : String
  sku : String
  name : String
  unit : String
  available_quantity : Int
deriving DecidableEq, Repr

/-- The dialog's state when the mutation fires: `kioskId` from `useAuth`
(string or null), the three controlled inputs, and the `products` query data
(undefined until loaded). -/
structure CreateFormState where
  kioskId : Option String
  toKioskId : String
  selectedProduct : String
  quantity : String
  products : Option (List ProductChoice)
deriving DecidableEq, Repr

/-- JavaScript truthiness of a nullable string: null, undefined and "" are
falsy. -/
def truthyStr : Option String → Bool
  | none => false
  | some s => s != ""

/-- Value of a decimal digit character. -/
def digitVal (c : Char) : Nat := c.toNat - '0'.toNat

/-- Accumulate a digit list into a number. -/
def digitsToNat (ds : List Char) : Nat :=
  ds.foldl (fun a c => a * 10 + digitVal c) 0

/-- Parse the leading run of decimal digits; `none` when there is none. -/
def takeLeadingNat (cs : List Char) : Option Nat :=
  match cs.takeWhile Char.isDigit with
  | [] => none
  | ds => some (digitsToNat ds)

/-- JavaScript `parseInt(s)` (radix 10): skip leading whitespace, accept an
optional sign, read the longest digit prefix; `none` models `NaN`. -/
def parseIntJS (s : String) : Option Int :=
  match s.toList.dropWhile Char.isWhitespace with
  | '-' :: rest => (takeLeadingNat rest).map (fun n => -(n : Int))
  | '+' :: rest => (takeLeadingNat rest).map (fun n => (n : Int))
  | cs => (takeLeadingNat cs).map (fun n => (n : Int))

/-- The body of `createMutation.mutationFn`.  `clientReqId` stands for the
freshly generated `` `req-${Date.now()}-${random}` `` string, which the
function cannot compute purely.  The checks run in source order:
missing/empty fields, product lookup in `products?`, `parseInt` NaN or
non-positive, quantity above availability; otherwise the request with a
single `{sku, quantity}` item is passed to `createRedistribution`. -/
def createMutationFn (st : CreateFormState) (clientReqId : String) :
    Except String CreateRedistributionRequest :=
  if !truthyStr st.kioskId || !truthyStr (some st.toKioskId) ||
      !truthyStr (some st.selectedProduct) || !truthyStr (some st.quantity) then
    .error "Please fill all fields"
  else
    match (st.products.getD []).find? (fun p => p.id == st.selectedProduct) with
    | none => .error "Product not found"
    | some product =>
      match parseIntJS st.quantity with
      | none => .error "Invalid quantity"
      | some qty =>
        if qty ≤ 0 then .error "Invalid quantity"
        else if qty > product.available_quantity then
          .error ("Only " ++ toString product.available_quantity ++ " units available")
        else
          .ok { from_kiosk_id := st.kioskId.getD ""
                to_kiosk_id := st.toKioskId
                items := [{ sku := product.sku, quantity := qty }]
                client_req_id := clientReqId
                signature := ""
                public_key := "" }

/-! ## Mutation configurations (react-query `useMutation` options)

Only the client-cache effects matter here: an `onMutate` handler would run
when the mutation is triggered, before any response; `onSuccess` runs after a
successful response.  `useMutation` without `onMutate` performs no cache
write before the response. -/

/-- A client-cache effect a mutation callback can perform. -/
inductive CacheEffect where
  | invalidate (queryKey : String)
  | setQueryData (queryKey : String)
deriving DecidableEq, Repr

/-- The callbacks of a `useMutation` configuration, restricted to their
cache effects. -/
structure MutationConfig where
  onMutate : List CacheEffect
  onSuccess : List CacheEffect
  onError : List CacheEffect
deriving DecidableEq, Repr

/-- The admin page's `approveMutation`: no `onMutate` handler is given;
`onSuccess` shows a toast, invalidates the `admin-redistributions` query and
closes the dialog (only the invalidation touches the cache); `onError` only
shows a toast. -/
def approveMutationConfig : MutationConfig :=
  { onMutate := []
    onSuccess := [.invalidate "admin-redistributions"]
    onError := [] }

/-- A mutation updates the displayed data optimistically when it writes the
client cache at trigger time, before the server's response. -/
def updatesCacheBeforeResponse (c : MutationConfig) : Bool :=
  !c.onMutate.isEmpty

/-! ## The Inventory page's `aggregatedProducts` reduce

`inventoryItems?.reduce((acc, item) => { const existing = acc.find(p =>
p.product_id === item.product_id); if (existing) { existing.total_quantity +=
item.quantity; existing.kiosks.push({kiosk: item.kiosks.name, quantity:
item.quantity}); } else { acc.push({...}); } return acc; }, [])`. -/

/-- The joined `kiosks (name)` sub-object of a `kiosk_inventory` row. -/
structure KioskRef where
  name : String
deriving DecidableEq, Repr

/-- A `kiosk_inventory` row as the Inventory page fetches it (with the joined
`products` row and kiosk name). -/
structure KioskInventoryItem where
  id : String
  kiosk_id : String
  product_id : String
  quantity : Int
  threshold : Option Int
  products : ProductRow
  kiosks : KioskRef
deriving DecidableEq, Repr

/-- An element of the `kiosks` array of an aggregated entry:
`{kiosk: item.kiosks.name, quantity: item.quantity}`. -/
structure KioskShare where
  kiosk : String
  quantity : Int
deriving DecidableEq, Repr

/-- An entry of `aggregatedProducts`. -/
structure AggProduct where
  product_id : String
  product : ProductRow
  total_quantity : Int
  kiosks : List KioskShare
deriving DecidableEq, Repr

/-- The in-place mutation of the entry `find` located: add the quantity and
push the kiosk share.  (`find` returns the first match; the fold keeps
product ids distinct, so at most one entry ever matches.) -/
def bumpEntry (p : AggProduct) (item : KioskInventoryItem) : AggProduct :=
  { p with total_quantity := p.total_quantity + item.quantity
           kiosks := p.kiosks ++ [{ kiosk := item.kiosks.name, quantity := item.quantity }] }

/-- Mutate the first entry whose `product_id` matches, as `acc.find` plus
in-place update does. -/
def updateFirst (acc : List AggProduct) (item : KioskInventoryItem) : List AggProduct :=
  match acc with
  | [] => []
  | p :: rest =>
    if p.product_id = item.product_id then bumpEntry p item :: rest
    else p :: updateFirst rest item

/-- The fresh entry pushed when no existing entry matches. -/
def newEntry (item : KioskInventoryItem) : AggProduct :=
  { product_id := item.product_id
    product := item.products
    total_quantity := item.quantity
    kiosks := [{ kiosk := item.kiosks.name, quantity := item.quantity }] }

/-- One step of the reduce. -/
def aggStep (acc : List AggProduct) (item : KioskInventoryItem) : List AggProduct :=
  match acc.find? (fun p => p.product_id == item.product_id) with
  | some _ => updateFirst acc item
  | none => acc ++ [newEntry item]

/-- The `aggregatedProducts` value: the reduce over the fetched inventory rows with
initial accumulator `[]`. -/
def aggregatedProducts (items : List KioskInventoryItem) : List AggProduct :=
  items.foldl aggStep []

/-- The input rows contributing to the aggregate entry of `pid`. -/
def itemsFor (pid : String) (items : List KioskInventoryItem) : List KioskInventoryItem :=
  items.filter (fun i => i.product_id == pid)

/-- The kiosk share an input row contributes. -/
def shareOf (i : KioskInventoryItem) : KioskShare :=
  { kiosk := i.kiosks.name, quantity := i.quantity }

/-- The four mandatory fields of the create dialog are filled with truthy
values (the disabled-button condition and the guard of `mutationFn`). -/
def fieldsFilled (st : CreateFormState) : Bool :=
  truthyStr st.kioskId && truthyStr (some st.toKioskId) &&
    truthyStr (some st.selectedProduct) && truthyStr (some st.quantity)

/-- Invariant of the reduce: after folding `processed`, the accumulator's
product ids are distinct and coincide with those of the processed rows, and
every entry aggregates exactly the processed rows of its product, in input
order. -/
def AggInv (processed : List KioskInventoryItem) (acc : List AggProduct) : Prop :=
  ((acc.map (fun p => p.product_id)).Nodup) ∧
  (∀ pid, pid ∈ acc.map (fun p => p.product_id) ↔
    pid ∈ processed.map (fun i => i.product_id)) ∧
  (∀ e ∈ acc,
    e.kiosks = (itemsFor e.product_id processed).map shareOf ∧
    e.total_quantity = ((itemsFor e.product_id processed).map (fun i => i.quantity)).sum)

/-! ## Concrete sample values used to evaluate the definitions -/

/-- A database with one admin user and nothing else. -/
def sampleDb : Database :=
  { user_roles := [{ id := "ur1", user_id := "alice", role := .admin }]
    profiles := []
    redistributions := [] }

/-- A concrete redistribution row. -/
def sampleRow : RedistributionRow :=
  { id := "rd1"
    from_kiosk_id := "k1"
    to_kiosk_id := "k2"
    status := .requested
    items := [{ sku := "SKU1", quantity := 3 }]
    pricing := none
    blockchain_ref := none
    txid := none
    client_req_id := "c1"
    signature := none
    public_key := none
    created_by := "bob"
    created_at := 0
    updated_at := 0
    completed_at := none }

/-- A concrete product choice of the create dialog. -/
def sampleChoice : ProductChoice :=
  { id := "p1", sku := "SKU1", name := "Water Bottle", unit := "unit",
    available_quantity := 10 }

/-- A form state whose quantity input is the empty string but whose other
fields are filled. -/
def emptyQuantityForm : CreateFormState :=
  { kioskId := some "k1", toKioskId := "k2", selectedProduct := "p1",
    quantity := "", products := some [sampleChoice] }

/-- A fully valid form state requesting 3 units. -/
def validForm : CreateFormState :=
  { kioskId := some "k1", toKioskId := "k2", selectedProduct := "p1",
    quantity := "3", products := some [sampleChoice] }

/-- A concrete product row. -/
def sampleProductA : ProductRow :=
  { id := "p1", sku := "SKU1", name := "Water Bottle", unit := "unit",
    unit_price := 250, acquired_price := none, suggested_price := none,
    quantity := 1000, created_at := 0, updated_at := 0 }

/-- A second concrete product row. -/
def sampleProductB : ProductRow :=
  { id := "p2", sku := "SKU2", name := "Snack Bar", unit := "unit",
    unit_price := 150, acquired_price := none, suggested_price := none,
    quantity := 800, created_at := 0, updated_at := 0 }

/-- Three inventory rows, the first and last sharing a product. -/
def sampleInventory : List KioskInventoryItem :=
  [ { id := "i1", kiosk_id := "k1", product_id := "p1", quantity := 2,
      threshold := some 20, products := sampleProductA, kiosks := { name := "Downtown" } },
    { id := "i2", kiosk_id := "k2", product_id := "p2", quantity := 5,
      threshold := some 20, products := sampleProductB, kiosks := { name := "Airport" } },
    { id := "i3", kiosk_id := "k3", product_id := "p1", quantity := 3,
      threshold := some 20, products := sampleProductA, kiosks := { name := "Mall" } } ]

/-- The aggregate entry the reduce builds for product `p1` of
`sampleInventory`. -/
def sampleAggEntry : AggProduct :=
  { product_id := "p1", product := sampleProductA, total_quantity := 5,
    kiosks := [{ kiosk := "Downtown", quantity := 2 }, { kiosk := "Mall", quantity := 3 }] }

/-! # Theorems -/

/-- Claim C1: the redistribution lifecycle column type admits exactly the
seven states requested, approved, submitted, fulfilled, reconciled, failed
and timed_out, and a newly inserted `redistributions` row whose status is not
explicitly given starts in state `requested` (the column default). -/
theorem redistribution_status_enum_and_default :
    (redistributionStatusValues =
        [.requested, .approved, .submitted, .fulfilled, .reconciled, .failed, .timed_out] ∧
      redistributionStatusValues.length = 7 ∧
      redistributionStatusValues.Nodup ∧
      ∀ s : RedistributionStatus, s ∈ redistributionStatusValues) ∧
    ∀ id fk tk items pricing bref txid crid sig pk cb now,
      (insertRedistribution id fk tk none items pricing bref txid crid sig pk cb now).status =
        RedistributionStatus.requested := by
  refine ⟨⟨rfl, rfl, by decide, fun s => ?_⟩, fun id fk tk items pricing bref txid crid sig pk cb now => rfl⟩
  cases s <;> simp [redistributionStatusValues]

/-- Claim C8: on every UPDATE of a `redistributions`, `kiosks`, `products`,
`profiles` or `blockchain_commands` row, the BEFORE UPDATE trigger sets
`updated_at` to the current time and leaves every other column exactly as
the update statement wrote it. -/
theorem update_trigger_updated_at_frame :
    (∀ (u : RedistributionRow → RedistributionRow) (old : RedistributionRow) (now : Nat),
      (applyUpdateRedistributions u old now).updated_at = now ∧
      (applyUpdateRedistributions u old now).id = (u old).id ∧
      (applyUpdateRedistributions u old now).from_kiosk_id = (u old).from_kiosk_id ∧
      (applyUpdateRedistributions u old now).to_kiosk_id = (u old).to_kiosk_id ∧
      (applyUpdateRedistributions u old now).status = (u old).status ∧
      (applyUpdateRedistributions u old now).items = (u old).items ∧
      (applyUpdateRedistributions u old now).pricing = (u old).pricing ∧
      (applyUpdateRedistributions u old now).blockchain_ref = (u old).blockchain_ref ∧
      (applyUpdateRedistributions u old now).txid = (u old).txid ∧
      (applyUpdateRedistributions u old now).client_req_id = (u old).client_req_id ∧
      (applyUpdateRedistributions u old now).signature = (u old).signature ∧
      (applyUpdateRedistributions u old now).public_key = (u old).public_key ∧
      (applyUpdateRedistributions u old now).created_by = (u old).created_by ∧
      (applyUpdateRedistributions u old now).created_at = (u old).created_at ∧
      (applyUpdateRedistributions u old now).completed_at = (u old).completed_at) ∧
    (∀ (u : KioskRow → KioskRow) (old : KioskRow) (now : Nat),
      (applyUpdateKiosks u old now).updated_at = now ∧
      (applyUpdateKiosks u old now).id = (u old).id ∧
      (applyUpdateKiosks u old now).name = (u old).name ∧
      (applyUpdateKiosks u old now).location = (u old).location ∧
      (applyUpdateKiosks u old now).kiosk_code = (u old).kiosk_code ∧
      (applyUpdateKiosks u old now).admin_id = (u old).admin_id ∧
      (applyUpdateKiosks u old now).auto_approve = (u old).auto_approve ∧
      (applyUpdateKiosks u old now).inventory = (u old).inventory ∧
      (applyUpdateKiosks u old now).status = (u old).status ∧
      (applyUpdateKiosks u old now).created_at = (u old).created_at) ∧
    (∀ (u : ProductRow → ProductRow) (old : ProductRow) (now : Nat),
      (applyUpdateProducts u old now).updated_at = now ∧
      (applyUpdateProducts u old now).id = (u old).id ∧
      (applyUpdateProducts u old now).sku = (u old).sku ∧
      (applyUpdateProducts u old now).name = (u old).name ∧
      (applyUpdateProducts u old now).unit = (u old).unit ∧
      (applyUpdateProducts u old now).unit_price = (u old).unit_price ∧
      (applyUpdateProducts u old now).acquired_price = (u old).acquired_price ∧
      (applyUpdateProducts u old now).suggested_price = (u old).suggested_price ∧
      (applyUpdateProducts u old now).quantity = (u old).quantity ∧
      (applyUpdateProducts u old now).created_at = (u old).created_at) ∧
    (∀ (u : ProfileRow → ProfileRow) (old : ProfileRow) (now : Nat),
      (applyUpdateProfiles u old now).updated_at = now ∧
      (applyUpdateProfiles u old now).id = (u old).id ∧
      (applyUpdateProfiles u old now).user_id = (u old).user_id ∧
      (applyUpdateProfiles u old now).full_name = (u old).full_name ∧
      (applyUpdateProfiles u old now).kiosk_id = (u old).kiosk_id ∧
      (applyUpdateProfiles u old now).created_at = (u old).created_at) ∧
    (∀ (u : BlockchainCommandRow → BlockchainCommandRow) (old : BlockchainCommandRow) (now : Nat),
      (applyUpdateCommands u old now).updated_at = now ∧
      (applyUpdateCommands u old now).id = (u old).id ∧
      (applyUpdateCommands u old now).user_id = (u old).user_id ∧
      (applyUpdateCommands u old now).client_req_id = (u old).client_req_id ∧
      (applyUpdateCommands u old now).command_type = (u old).command_type ∧
      (applyUpdateCommands u old now).payload = (u old).payload ∧
      (applyUpdateCommands u old now).status = (u old).status ∧
      (applyUpdateCommands u old now).redistribution_id = (u old).redistribution_id ∧
      (applyUpdateCommands u old now).error_message = (u old).error_message ∧
      (applyUpdateCommands u old now).created_at = (u old).created_at ∧
      (applyUpdateCommands u old now).processed_at = (u old).processed_at) := by
  refine ⟨fun u old now => ?_, fun u old now => ?_, fun u old now => ?_,
    fun u old now => ?_, fun u old now => ?_⟩ <;>
    (repeat' apply And.intro) <;> rfl

/-- Claim C9: `getStatusColor` is total over arbitrary status strings: every
status other than the six explicitly coloured ones gets the default class
`bg-secondary`; in particular the lifecycle state `timed_out` gets the
default badge class rather than a distinct colour. -/
theorem getStatusColor_total :
    (∀ s : String, s ≠ "requested" → s ≠ "approved" → s ≠ "submitted" →
      s ≠ "fulfilled" → s ≠ "reconciled" → s ≠ "failed" →
      getStatusColor s = "bg-secondary") ∧
    getStatusColor "timed_out" = "bg-secondary" := by
  constructor
  · intro s h1 h2 h3 h4 h5 h6
    simp [getStatusColor, h1, h2, h3, h4, h5, h6]
  · decide

/-- Witness for C9: the theorem evaluated at the concrete status `"zzz"`. -/
theorem getStatusColor_total_witness : getStatusColor "zzz" = "bg-secondary" :=
  getStatusColor_total.1 "zzz" (by decide) (by decide) (by decide) (by decide)
    (by decide) (by decide)

/-- Claim C7 counterexample: the approve mutation performs no optimistic
cache update — it has no `onMutate` handler, so the client cache is not
written before the server's response. -/
theorem approve_no_optimistic_update_cex :
    updatesCacheBeforeResponse approveMutationConfig = false ∧
    approveMutationConfig.onMutate = [] :=
  ⟨rfl, rfl⟩

/-- Claim C7 amended: the approve mutation performs no cache write at trigger
time; the redistribution data is only refetched after a successful response,
via invalidation of the `admin-redistributions` query in `onSuccess`. -/
theorem approve_refetch_after_success :
    approveMutationConfig.onMutate = [] ∧
    approveMutationConfig.onSuccess = [CacheEffect.invalidate "admin-redistributions"] :=
  ⟨rfl, rfl⟩

/-- Claim C3 counterexample: on a failed response whose `error.message` field
is present but equal to the empty string, `apiRequest` throws
`"API request failed"`, not the present message — JavaScript `||` treats the
empty string as falsy. -/
theorem apiRequest_empty_message_cex :
    apiRequest ({ ok := false, body := { error := some { message := some "" }, data := 0 } } :
        HttpResponse Nat) = Except.error "API request failed" ∧
    ({ ok := false, body := { error := some { message := some "" }, data := 0 } } :
        HttpResponse Nat).body.error.bind (fun e => e.message) = some "" ∧
    "API request failed" ≠ "" :=
  ⟨rfl, rfl, by decide⟩

/-- Claim C3 amended: `apiRequest` throws if and only if `response.ok` is
false; when it is true, it returns exactly the `data` field; the thrown
message is the body's `error.message` when that field is present and
non-empty, and the string `"API request failed"` when the field is absent or
empty. -/
theorem apiRequest_spec {α : Type} (resp : HttpResponse α) :
    ((∃ m, apiRequest resp = Except.error m) ↔ resp.ok = false) ∧
    (resp.ok = true → apiRequest resp = Except.ok resp.body.data) ∧
    (resp.ok = false → ∀ m, resp.body.error.bind (fun e => e.message) = some m → m ≠ "" →
      apiRequest resp = Except.error m) ∧
    (resp.ok = false →
      (resp.body.error.bind (fun e => e.message) = none ∨
        resp.body.error.bind (fun e => e.message) = some "") →
      apiRequest resp = Except.error "API request failed") := by
  obtain ⟨ok, body⟩ := resp
  cases ok
  case false =>
    refine ⟨⟨fun _ => rfl, fun _ => ⟨_, rfl⟩⟩, ?_, ?_, ?_⟩
    · intro h
      simp at h
    · intro _ m hm hne
      simp [apiRequest, jsOrElse, hm, hne]
    · intro _ hfalsy
      rcases hfalsy with h | h <;> simp [apiRequest, jsOrElse, h]
  case true =>
    refine ⟨⟨?_, ?_⟩, fun _ => rfl, ?_, ?_⟩
    · rintro ⟨m, hm⟩
      simp [apiRequest] at hm
    · intro h
      simp at h
    · intro h
      simp at h
    · intro h
      simp at h

/-- Witness for C3: the amended theorem evaluated at a concrete failed
response carrying the non-empty message `"boom"`. -/
theorem apiRequest_spec_witness :
    apiRequest ({ ok := false, body := { error := some { message := some "boom" }, data := 0 } } :
        HttpResponse Nat) = Except.error "boom" :=
  (apiRequest_spec _).2.2.1 rfl "boom" rfl (by decide)

/-- Claim C2: no request the repository's client code sends carries a status
field to write — `approveRedistribution` only POSTs
`{admin_wallet, client_req_id}` to the approve endpoint — and the in-repo
uses of status are reads: the admin pending-list query filters with the
params `{status: "requested"}` over a GET. -/
theorem no_repo_operation_writes_status :
    (∀ op : RepoOperation, "status" ∉ (optionsOf op).bodyKeys) ∧
    (∀ id, optionsOf (RepoOperation.approveRedist id) =
        { method := some Method.post, bodyKeys := ["admin_wallet", "client_req_id"],
          headers := [] } ∧
      endpointOf (RepoOperation.approveRedist id) = "/redistributions/" ++ id ++ "/approve") ∧
    effectiveMethod (optionsOf (RepoOperation.listRedists adminPendingParams)) = Method.get ∧
    ("status", "requested") ∈ adminPendingParams := by
  refine ⟨fun op => ?_, fun id => ⟨rfl, rfl⟩, rfl, by decide⟩
  cases op <;> simp [optionsOf, emptyOptions]

/-- Witness for C2: the create request itself carries no status key. -/
theorem no_repo_operation_writes_status_witness :
    "status" ∉ (optionsOf RepoOperation.createRedist).bodyKeys :=
  no_repo_operation_writes_status.1 RepoOperation.createRedist

/-- Evaluating `buildHeaders` with a token and no caller headers: the object
holds `Content-Type` and the bearer `Authorization` entry. -/
theorem buildHeaders_some_nil (t : String) :
    buildHeaders (some t) [] =
      [("Content-Type", "application/json"), ("Authorization", "Bearer " ++ t)] := by
  show setHeader [("Content-Type", "application/json")] "Authorization" ("Bearer " ++ t) = _
  rw [setHeader, if_neg (by decide)]
  rfl

/-- Reading `Authorization` back from the two-entry headers object. -/
theorem getHeader_bearer (t : String) :
    getHeader [("Content-Type", "application/json"), ("Authorization", "Bearer " ++ t)]
      "Authorization" = some ("Bearer " ++ t) := by
  rw [getHeader, if_neg (by decide), getHeader, if_pos rfl]

/-- Reading `Content-Type` back from the two-entry headers object. -/
theorem getHeader_content_type (t : String) :
    getHeader [("Content-Type", "application/json"), ("Authorization", "Bearer " ++ t)]
      "Content-Type" = some "application/json" := by
  rw [getHeader, if_pos rfl]

/-- No api.ts caller ever passes `options.headers`. -/
theorem optionsOf_headers_nil (op : RepoOperation) : (optionsOf op).headers = [] := by
  cases op <;> rfl

/-- Claim C4: for every operation of the client, when the session yields a
token `t` the sent headers carry `Authorization: Bearer t` together with
`Content-Type: application/json`; when `getAuthToken` returns null no
`Authorization` header is attached. -/
theorem auth_header_spec :
    ∀ (op : RepoOperation) (token : Option String),
      (∀ t, token = some t →
        getHeader (sentHeaders op token) "Authorization" = some ("Bearer " ++ t) ∧
        getHeader (sentHeaders op token) "Content-Type" = some "application/json") ∧
      (token = none → getHeader (sentHeaders op token) "Authorization" = none) := by
  intro op token
  constructor
  · rintro t rfl
    unfold sentHeaders
    rw [optionsOf_headers_nil, buildHeaders_some_nil]
    exact ⟨getHeader_bearer t, getHeader_content_type t⟩
  · rintro rfl
    unfold sentHeaders
    rw [optionsOf_headers_nil]
    show getHeader [("Content-Type", "application/json")] "Authorization" = none
    rw [getHeader, if_neg (by decide)]
    rfl

/-- Witness for C4: the health-check request with token `"tok"` carries the
bearer header. -/
theorem auth_header_spec_witness :
    getHeader (sentHeaders RepoOperation.getHealthCall (some "tok")) "Authorization" =
      some ("Bearer " ++ "tok") :=
  ((auth_header_spec RepoOperation.getHealthCall (some "tok")).1 "tok" rfl).1

/-- Claim C5: under the permissive SELECT policies on `redistributions`, an
admin-role user can read every row; a user with role kiosk and no admin role
can read a row exactly when some profile of that user points at the row's
`from_kiosk_id` or `to_kiosk_id`; a row admitted by neither policy is
invisible. -/
theorem redistribution_select_policy_spec :
    ∀ (db : Database) (uid : String) (row : RedistributionRow),
      (adminSelectPolicy db uid = true → canSelectRedistribution db uid row = true) ∧
      (hasKioskRole db uid = true → adminSelectPolicy db uid = false →
        (canSelectRedistribution db uid row = true ↔
          ∃ p ∈ db.profiles, p.user_id = uid ∧
            (p.kiosk_id = some row.from_kiosk_id ∨ p.kiosk_id = some row.to_kiosk_id))) ∧
      (adminSelectPolicy db uid = false → kioskSelectPolicy db uid row = false →
        canSelectRedistribution db uid row = false) := by
  intro db uid row
  refine ⟨?_, ?_, ?_⟩
  · intro h
    simp [canSelectRedistribution, h]
  · intro _ hna
    simp [canSelectRedistribution, hna, kioskSelectPolicy, List.any_eq_true]
  · intro h1 h2
    simp [canSelectRedistribution, h1, h2]

/-- Witness for C5: in a database holding one admin role for `"alice"`, the
admin sees the sample row. -/
theorem redistribution_select_policy_spec_witness :
    canSelectRedistribution sampleDb "alice" sampleRow = true :=
  (redistribution_select_policy_spec sampleDb "alice" sampleRow).1 (by decide)

/-- Claim C6 counterexample: with every other field filled, an empty quantity
input parses to NaN, yet the mutation throws `"Please fill all fields"` (the
emptiness guard fires first), not `"Invalid quantity"` as the claim states. -/
theorem create_quantity_error_message_cex :
    createMutationFn emptyQuantityForm "req-1" = Except.error "Please fill all fields" ∧
    parseIntJS emptyQuantityForm.quantity = none ∧
    "Please fill all fields" ≠ "Invalid quantity" := by
  refine ⟨rfl, by decide, by decide⟩

/-- Claim C6 amended: whenever the quantity parses to NaN or a value ≤ 0 the
mutation throws and no request is sent; a request is only ever sent when all
fields are filled, the product is found, and the parsed quantity is positive
and within availability, and it then carries exactly one `{sku, quantity}`
item; the specific messages `"Invalid quantity"` and
`"Only N units available"` are thrown once the fill-guard and product lookup
have passed. -/
theorem createMutation_validation_spec :
    ∀ (st : CreateFormState) (reqId : String),
      ((parseIntJS st.quantity = none ∨ ∃ q, parseIntJS st.quantity = some q ∧ q ≤ 0) →
        ∃ e, createMutationFn st reqId = Except.error e) ∧
      (∀ r, createMutationFn st reqId = Except.ok r →
        ∃ p q, (st.products.getD []).find? (fun pr => pr.id == st.selectedProduct) = some p ∧
          parseIntJS st.quantity = some q ∧ 0 < q ∧ q ≤ p.available_quantity ∧
          r.items = [{ sku := p.sku, quantity := q }]) ∧
      (∀ p, fieldsFilled st = true →
        (st.products.getD []).find? (fun pr => pr.id == st.selectedProduct) = some p →
        ((parseIntJS st.quantity = none ∨ ∃ q, parseIntJS st.quantity = some q ∧ q ≤ 0) →
          createMutationFn st reqId = Except.error "Invalid quantity") ∧
        (∀ q, parseIntJS st.quantity = some q → 0 < q → p.available_quantity < q →
          createMutationFn st reqId =
            Except.error ("Only " ++ toString p.available_quantity ++ " units available")) ∧
        (∀ q, parseIntJS st.quantity = some q → 0 < q → q ≤ p.available_quantity →
          createMutationFn st reqId = Except.ok
            { from_kiosk_id := st.kioskId.getD ""
              to_kiosk_id := st.toKioskId
              items := [{ sku := p.sku, quantity := q }]
              client_req_id := reqId
              signature := ""
              public_key := "" })) := by
  intro st reqId
  refine ⟨?_, ?_, ?_⟩
  · intro hq
    unfold createMutationFn
    cases hguard : (!truthyStr st.kioskId || !truthyStr (some st.toKioskId) ||
        !truthyStr (some st.selectedProduct) || !truthyStr (some st.quantity)) with
    | true => simp [hguard]
    | false =>
      simp only [hguard, Bool.false_eq_true, if_false]
      cases hfind : (st.products.getD []).find? (fun pr => pr.id == st.selectedProduct) with
      | none =>
        exact ⟨_, rfl⟩
      | some p =>
        dsimp only
        rcases hq with hnan | ⟨q, hqe, hle⟩
        · rw [hnan]
          exact ⟨_, rfl⟩
        · rw [hqe]
          dsimp only
          rw [if_pos hle]
          exact ⟨_, rfl⟩
  · intro r hr
    unfold createMutationFn at hr
    cases hguard : (!truthyStr st.kioskId || !truthyStr (some st.toKioskId) ||
        !truthyStr (some st.selectedProduct) || !truthyStr (some st.quantity)) with
    | true =>
      rw [hguard] at hr
      simp at hr
    | false =>
      rw [hguard] at hr
      simp only [Bool.false_eq_true, if_false] at hr
      cases hfind : (st.products.getD []).find? (fun pr => pr.id == st.selectedProduct) with
      | none =>
        rw [hfind] at hr
        simp at hr
      | some p =>
        rw [hfind] at hr
        dsimp only at hr
        cases hqe : parseIntJS st.quantity with
        | none =>
          rw [hqe] at hr
          simp at hr
        | some q =>
          rw [hqe] at hr
          dsimp only at hr
          by_cases h0 : q ≤ 0
          · rw [if_pos h0] at hr
            simp at hr
          · rw [if_neg h0] at hr
            by_cases havail : q > p.available_quantity
            · rw [if_pos havail] at hr
              simp at hr
            · rw [if_neg havail] at hr
              have hr' := Except.ok.inj hr
              refine ⟨p, q, rfl, rfl, by omega, by omega, ?_⟩
              rw [← hr']
  · intro p hfill hfind
    have hfills := by
      simpa [fieldsFilled, Bool.and_eq_true] using hfill
    obtain ⟨⟨⟨h1, h2⟩, h3⟩, h4⟩ := hfills
    have hguard : (!truthyStr st.kioskId || !truthyStr (some st.toKioskId) ||
        !truthyStr (some st.selectedProduct) || !truthyStr (some st.quantity)) = false := by
      simp [h1, h2, h3, h4]
    refine ⟨?_, ?_, ?_⟩
    · intro hq
      unfold createMutationFn
      rw [hguard]
      simp only [Bool.false_eq_true, if_false]
      rw [hfind]
      dsimp only
      rcases hq with hnan | ⟨q, hqe, hle⟩
      · rw [hnan]
      · rw [hqe]
        dsimp only
        rw [if_pos hle]
    · intro q hqe h0 hgt
      unfold createMutationFn
      rw [hguard]
      simp only [Bool.false_eq_true, if_false]
      rw [hfind]
      dsimp only
      rw [hqe]
      dsimp only
      rw [if_neg (by omega), if_pos hgt]
    · intro q hqe h0 hlee
      unfold createMutationFn
      rw [hguard]
      simp only [Bool.false_eq_true, if_false]
      rw [hfind]
      dsimp only
      rw [hqe]
      dsimp only
      rw [if_neg (by omega), if_neg (by omega)]

/-- Witness for C6: the valid sample form sends the single-item request for 3
units of SKU1. -/
theorem createMutation_validation_spec_witness :
    createMutationFn validForm "r1" = Except.ok
      { from_kiosk_id := "k1", to_kiosk_id := "k2",
        items := [{ sku := "SKU1", quantity := 3 }],
        client_req_id := "r1", signature := "", public_key := "" } :=
  ((createMutation_validation_spec validForm "r1").2.2 sampleChoice (by decide)
    (by decide)).2.2 3 (by decide) (by decide) (by decide)

/-- Bumping an entry keeps its product id. -/
theorem bumpEntry_product_id (p : AggProduct) (item : KioskInventoryItem) :
    (bumpEntry p item).product_id = p.product_id := rfl

/-- Updating the first matching entry keeps the accumulator's product ids. -/
theorem updateFirst_map_product_id (acc : List AggProduct) (item : KioskInventoryItem) :
    (updateFirst acc item).map (fun p => p.product_id) =
      acc.map (fun p => p.product_id) := by
  induction acc with
  | nil => rfl
  | cons p rest ih =>
    simp only [updateFirst]
    by_cases h : p.product_id = item.product_id
    · rw [if_pos h]
      simp [bumpEntry]
    · rw [if_neg h]
      simp [ih]

/-- In an accumulator with distinct product ids, a member of
`updateFirst acc item` is either an untouched entry of a different product
or the bumped version of the unique matching entry. -/
theorem mem_updateFirst {acc : List AggProduct} {item : KioskInventoryItem}
    {e : AggProduct} (hnd : (acc.map (fun p => p.product_id)).Nodup)
    (hmem : e ∈ updateFirst acc item) :
    (e ∈ acc ∧ e.product_id ≠ item.product_id) ∨
      (∃ p, p ∈ acc ∧ p.product_id = item.product_id ∧ e = bumpEntry p item) := by
  induction acc with
  | nil => simp [updateFirst] at hmem
  | cons p rest ih =>
    simp only [List.map_cons, List.nodup_cons] at hnd
    obtain ⟨hp, hrest⟩ := hnd
    simp only [updateFirst] at hmem
    by_cases h : p.product_id = item.product_id
    · rw [if_pos h] at hmem
      rcases List.mem_cons.mp hmem with rfl | hmem'
      · exact Or.inr ⟨p, List.mem_cons_self p rest, h, rfl⟩
      · refine Or.inl ⟨List.mem_cons_of_mem p hmem', fun he => ?_⟩
        exact hp (by rw [h, ← he]; exact List.mem_map_of_mem _ hmem')
    · rw [if_neg h] at hmem
      rcases List.mem_cons.mp hmem with rfl | hmem'
      · exact Or.inl ⟨List.mem_cons_self e rest, h⟩
      · rcases ih hrest hmem' with ⟨h1, h2⟩ | ⟨q, hq, hqe, rfl⟩
        · exact Or.inl ⟨List.mem_cons_of_mem p h1, h2⟩
        · exact Or.inr ⟨q, List.mem_cons_of_mem p hq, hqe, rfl⟩

/-- Splitting the contributing rows over an append. -/
theorem itemsFor_append (pid : String) (l1 l2 : List KioskInventoryItem) :
    itemsFor pid (l1 ++ l2) = itemsFor pid l1 ++ itemsFor pid l2 := by
  simp [itemsFor, List.filter_append]

/-- A row of another product contributes nothing. -/
theorem itemsFor_singleton_ne (pid : String) (item : KioskInventoryItem)
    (h : item.product_id ≠ pid) : itemsFor pid [item] = [] := by
  simp [itemsFor, List.filter_cons, h]

/-- A row of the same product contributes itself. -/
theorem itemsFor_singleton_eq (pid : String) (item : KioskInventoryItem)
    (h : item.product_id = pid) : itemsFor pid [item] = [item] := by
  simp [itemsFor, List.filter_cons, h]

/-- One reduce step preserves the aggregation invariant. -/
theorem aggStep_inv {processed : List KioskInventoryItem} {acc : List AggProduct}
    (item : KioskInventoryItem) (h : AggInv processed acc) :
    AggInv (processed ++ [item]) (aggStep acc item) := by
  obtain ⟨hnd, hiff, hent⟩ := h
  unfold aggStep
  cases hfind : acc.find? (fun p => p.product_id == item.product_id) with
  | none =>
    have hnotin : item.product_id ∉ acc.map (fun p => p.product_id) := by
      intro hmem
      obtain ⟨p, hpmem, hpe⟩ := List.mem_map.mp hmem
      have hnone := List.find?_eq_none.mp hfind p hpmem
      exact hnone (by rw [beq_iff_eq]; exact hpe)
    have hnotproc : item.product_id ∉ processed.map (fun i => i.product_id) :=
      fun hc => hnotin ((hiff _).mpr hc)
    refine ⟨?_, ?_, ?_⟩
    · rw [List.map_append]
      rw [List.nodup_append]
      refine ⟨hnd, List.nodup_singleton _, ?_⟩
      intro pid hpid hpid1
      simp only [List.map_cons, List.map_nil, List.mem_singleton] at hpid1
      have : (newEntry item).product_id = item.product_id := rfl
      rw [this] at hpid1
      exact hnotin (hpid1 ▸ hpid)
    · intro pid
      rw [List.map_append, List.map_append, List.mem_append, List.mem_append, hiff pid]
      have : ([newEntry item].map (fun p => p.product_id)) = [item.product_id] := rfl
      rw [this]
      rfl
    · intro e he
      rcases List.mem_append.mp he with he | he
      · obtain ⟨hk, ht⟩ := hent e he
        have hne : item.product_id ≠ e.product_id := by
          intro hc
          exact hnotin (hc ▸ List.mem_map_of_mem _ he)
        rw [itemsFor_append, itemsFor_singleton_ne _ _ hne]
        simp [hk, ht]
      · rw [List.mem_singleton] at he
        subst he
        have h1 : itemsFor (newEntry item).product_id processed = [] := by
          simp only [itemsFor]
          rw [List.filter_eq_nil_iff]
          intro i hi hcontra
          rw [beq_iff_eq] at hcontra
          refine hnotproc ?_
          rw [show item.product_id = (newEntry item).product_id from rfl, ← hcontra]
          exact List.mem_map_of_mem _ hi
        have h2 : itemsFor (newEntry item).product_id [item] = [item] :=
          itemsFor_singleton_eq _ _ rfl
        rw [itemsFor_append, h1, h2]
        constructor
        · simp [newEntry, shareOf]
        · simp [newEntry]
  | some p0 =>
    have hp0mem := List.mem_of_find?_eq_some hfind
    have hp0eq : p0.product_id = item.product_id := by
      have := List.find?_some hfind
      rwa [beq_iff_eq] at this
    have hin : item.product_id ∈ acc.map (fun p => p.product_id) :=
      hp0eq ▸ List.mem_map_of_mem _ hp0mem
    have hinproc : item.product_id ∈ processed.map (fun i => i.product_id) :=
      (hiff _).mp hin
    refine ⟨?_, ?_, ?_⟩
    · rw [updateFirst_map_product_id]
      exact hnd
    · intro pid
      rw [updateFirst_map_product_id, List.map_append, List.mem_append, hiff pid]
      constructor
      · exact Or.inl
      · rintro (h | h)
        · exact h
        · simp only [List.map_cons, List.map_nil, List.mem_singleton] at h
          exact h ▸ hinproc
    · intro e he
      rcases mem_updateFirst hnd he with ⟨he', hne⟩ | ⟨p, hpmem, hpe, rfl⟩
      · obtain ⟨hk, ht⟩ := hent e he'
        rw [itemsFor_append, itemsFor_singleton_ne _ _ (fun hc => hne hc.symm)]
        simp [hk, ht]
      · obtain ⟨hk, ht⟩ := hent p hpmem
        have hitem : item.product_id = (bumpEntry p item).product_id := by
          rw [bumpEntry_product_id, hpe]
        rw [itemsFor_append, itemsFor_singleton_eq _ _ hitem, bumpEntry_product_id]
        constructor
        · show (bumpEntry p item).kiosks = _
          rw [List.map_append]
          simp [bumpEntry, hk, shareOf]
        · show (bumpEntry p item).total_quantity = _
          rw [List.map_append, List.sum_append]
          simp [bumpEntry, ht]

/-- Folding the reduce step over any suffix preserves the invariant. -/
theorem aggInv_foldl :
    ∀ (items processed : List KioskInventoryItem) (acc : List AggProduct),
      AggInv processed acc → AggInv (processed ++ items) (items.foldl aggStep acc) := by
  intro items
  induction items with
  | nil =>
    intro processed acc h
    simpa using h
  | cons i rest ih =>
    intro processed acc h
    have h2 := ih (processed ++ [i]) (aggStep acc i) (aggStep_inv i h)
    rw [List.foldl_cons]
    simpa [List.append_assoc] using h2

/-- Claim C10: the Inventory page's reduce yields one entry per input product
id, whose `total_quantity` is the sum of the quantities of the rows of that
product and whose `kiosks` list holds one `{kiosk, quantity}` share per such
row, in input order. -/
theorem aggregatedProducts_spec (items : List KioskInventoryItem) :
    ((aggregatedProducts items).map (fun p => p.product_id)).Nodup ∧
    (∀ pid, pid ∈ (aggregatedProducts items).map (fun p => p.product_id) ↔
      pid ∈ items.map (fun i => i.product_id)) ∧
    (∀ e ∈ aggregatedProducts items,
      e.kiosks = (itemsFor e.product_id items).map shareOf ∧
      e.total_quantity = ((itemsFor e.product_id items).map (fun i => i.quantity)).sum) := by
  have h0 : AggInv [] [] := ⟨List.nodup_nil, by simp, by simp⟩
  have h := aggInv_foldl items [] [] h0
  rw [List.nil_append] at h
  exact h

/-- Witness for C10: the `p1` entry aggregated from the three sample rows
holds the Downtown and Mall shares in input order and totals 5. -/
theorem aggregatedProducts_spec_witness :
    sampleAggEntry.kiosks = (itemsFor sampleAggEntry.product_id sampleInventory).map shareOf ∧
    sampleAggEntry.total_quantity =
      ((itemsFor sampleAggEntry.product_id sampleInventory).map (fun i => i.quantity)).sum :=
  (aggregatedProducts_spec sampleInventory).2.2 sampleAggEntry (by decide)

end Akta
